import Mathlib

/-
Verification of the purely library's Option / safe-navigation subsystem and the
Chain fluent wrapper (src/purely/core.py), over a shallow embedding.

Python values are modelled by a small universe `V`: the distinguished `None`,
integers, strings, attribute-bearing objects and string-keyed mutable dicts
(attribute and container entries are atomic values `VAtom`).  Raised Python
exceptions are modelled by `Except Err`; a caller-supplied `str | Exception`
error argument is `ErrArg`.  Python's `_SENTINEL` default-argument idiom is the
`Arg` type: `Arg.sentinel` is "argument not supplied".
-/

/-- Python exceptions raised by the library or by the underlying operations:
ValueError with a message, AttributeError carrying the value's type name and the
missing attribute name, KeyError carrying the missing key. -/
inductive Err where
  | valueError (msg : String)
  | attributeError (typeName attrName : String)
  | keyError (key : String)
deriving DecidableEq

/-- A caller-supplied error specification, `error: str | Exception` in the source. -/
inductive ErrArg where
  | msg (s : String)
  | exc (e : Err)
deriving DecidableEq

/-- The raise performed on an error argument, as written twice in the source:
if isinstance(error, str): raise ValueError(error); raise error. -/
def ErrArg.toRaise : ErrArg → Err
  | .msg s => .valueError s
  | .exc e => e

/-- An optional-argument slot: `sentinel` models the `_SENTINEL` default object,
`given a` a value actually passed (which may itself be Python None). -/
inductive Arg (α : Type) where
  | sentinel
  | given (a : α)
deriving DecidableEq

/-- Atomic Python values, used as attribute and container entries. -/
inductive VAtom where
  | anone
  | aint (n : Int)
  | astr (s : String)
deriving DecidableEq

/-- The modelled Python value universe: None, ints, strings, objects with named
attributes, and string-keyed dicts. -/
inductive V where
  | vnone
  | vint (n : Int)
  | vstr (s : String)
  | vobj (attrs : List (String × VAtom))
  | vdict (entries : List (String × VAtom))
deriving DecidableEq

/-- Inclusion of atomic values into the universe. -/
def VAtom.toV : VAtom → V
  | .anone => V.vnone
  | .aint n => V.vint n
  | .astr s => V.vstr s

/-- Python type name of a modelled value, used in AttributeError. -/
def V.typeName : V → String
  | .vnone => "NoneType"
  | .vint _ => "int"
  | .vstr _ => "str"
  | .vobj _ => "object"
  | .vdict _ => "dict"

/-- Python built-in getattr on a modelled value: objects expose their attribute
list; no other modelled value (None included) has any of the attribute names the
claims exercise, so lookup on them raises AttributeError. -/
def V.pygetattr (v : V) (name : String) : Except Err V :=
  match v with
  | .vobj attrs =>
    match attrs.lookup name with
    | some a => .ok a.toV
    | none => .error (.attributeError v.typeName name)
  | _ => .error (.attributeError v.typeName name)

/-- getattr(value, "__getitem__")(key): dicts are subscriptable by string keys
(missing key raises KeyError); any other value has no __getitem__, so the
getattr step raises AttributeError. -/
def V.pygetitem (v : V) (key : V) : Except Err V :=
  match v with
  | .vdict es =>
    match key with
    | .vstr k =>
      match es.lookup k with
      | some a => .ok a.toV
      | none => .error (.keyError k)
    | _ => .error (.keyError "unhashable key")
  | _ => .error (.attributeError v.typeName "__getitem__")

/-- Python dict item assignment on an association list: an existing key is
updated in place, a new key is appended. -/
def setEntry : List (String × VAtom) → String → VAtom → List (String × VAtom)
  | [], k, a => [(k, a)]
  | (k', a') :: rest, k, a =>
    if k' = k then (k, a) :: rest else (k', a') :: setEntry rest k a

/-- getattr(value, "__setitem__")(key, x): dicts are mutable string-keyed
containers, and the result is the mutated dict; any other value (None included)
has no __setitem__, so the getattr step raises AttributeError. -/
def V.pysetitem (v : V) (key : V) (x : VAtom) : Except Err V :=
  match v with
  | .vdict es =>
    match key with
    | .vstr k => .ok (.vdict (setEntry es k x))
    | _ => .error (.keyError "unhashable key")
  | _ => .error (.attributeError v.typeName "__setitem__")

/-- getattr(value, "__call__")(args): no value in the modelled universe is
callable, so the getattr step raises AttributeError on every present value. -/
def V.pycall (v : V) (args : List V) : Except Err V :=
  match args with
  | _ => .error (.attributeError v.typeName "__call__")

namespace Purely

/-- class Option: a container wrapping any value; absence is `_value is None`. -/
structure Option where
  val : V
deriving DecidableEq

/-- The default of unwrap's error parameter: ValueError("Called unwrap on None"). -/
def Option.unwrapDefault : ErrArg := .exc (Err.valueError "Called unwrap on None")

/-- Option.is_some: `return self._value is not None`. -/
def Option.is_some (o : Option) : Bool :=
  match o.val with
  | V.vnone => false
  | _ => true

/-- Option.is_none: `return self._value is None`. -/
def Option.is_none (o : Option) : Bool :=
  match o.val with
  | V.vnone => true
  | _ => false

/-- Option.unwrap(default=_SENTINEL, error=ValueError("Called unwrap on None")):
present returns the value; otherwise a supplied default is returned; otherwise
the error argument is raised (ValueError around a string, verbatim otherwise). -/
def Option.unwrap (o : Option) (dflt : Arg V) (error : ErrArg) : Except Err V :=
  match o.val with
  | V.vnone =>
    match dflt with
    | .given d => .ok d
    | .sentinel => .error error.toRaise
  | v => .ok v

/-- Option.map(func): absent returns Option(None) without touching func;
present returns Option(func(value)), any failure of func propagating. -/
def Option.map (o : Option) (func : V → Except Err V) : Except Err Option :=
  match o.val with
  | V.vnone => .ok ⟨V.vnone⟩
  | v =>
    match func v with
    | .ok u => .ok ⟨u⟩
    | .error e => .error e

/-- Option.filter(predicate): present and predicate holds returns self;
otherwise Option(None); the predicate is only invoked on a present value. -/
def Option.filter (o : Option) (pred : V → Except Err Bool) : Except Err Option :=
  match o.val with
  | V.vnone => .ok ⟨V.vnone⟩
  | v =>
    match pred v with
    | .ok true => .ok o
    | .ok false => .ok ⟨V.vnone⟩
    | .error e => .error e

/-- Option.__getattr__(name): absent returns Option(None); present returns
Option(getattr(self._value, name)), a lookup failure propagating. -/
def Option.get_attr (o : Option) (name : String) : Except Err Option :=
  match o.val with
  | V.vnone => .ok ⟨V.vnone⟩
  | v =>
    match V.pygetattr v name with
    | .ok u => .ok ⟨u⟩
    | .error e => .error e

/-- Option.__call__(args): absent returns Option(None); present fetches
__call__ on the value and invokes it, wrapping the result. -/
def Option.call (o : Option) (args : List V) : Except Err Option :=
  match o.val with
  | V.vnone => .ok ⟨V.vnone⟩
  | v =>
    match V.pycall v args with
    | .ok u => .ok ⟨u⟩
    | .error e => .error e

/-- Option.__getitem__(key): absent returns Option(None); present fetches
__getitem__ on the value, applies it to the key and wraps the result. -/
def Option.get_item (o : Option) (key : V) : Except Err Option :=
  match o.val with
  | V.vnone => .ok ⟨V.vnone⟩
  | v =>
    match V.pygetitem v key with
    | .ok u => .ok ⟨u⟩
    | .error e => .error e

/-- Option.__setitem__(key, x), translated faithfully to the source: the line
`if self._value is None: pass` has no effect and control falls through, so
getattr(self._value, "__setitem__") runs on the raw value even when it is None.
The result is the container holding the mutated underlying value. -/
def Option.set_item (o : Option) (key : V) (x : VAtom) : Except Err Option :=
  match V.pysetitem o.val key x with
  | .ok u => .ok ⟨u⟩
  | .error e => .error e

/-- Option.__eq__ against another Option: compares the underlying values. -/
def Option.eqOpt (a b : Option) : Bool := a.val == b.val

/-- Option.__eq__ against a raw value: compares the underlying value with it. -/
def Option.eqV (a : Option) (x : V) : Bool := a.val == x

/-- The method names the source defines on class Option; Python resolves any
other attribute name on an Option instance through the __getattr__ hook. -/
def optionClassMethods : List String :=
  ["__init__", "is_some", "is_none", "unwrap", "map", "filter",
   "__getattr__", "__call__", "__getitem__", "__setitem__", "__eq__"]

/-- The argument of the global ensure: a raw value or an Option instance
(the isinstance(value, Option) runtime check distinguishes them). -/
inductive EnsureArg where
  | raw (v : V)
  | wrapped (o : Option)
deriving DecidableEq

/-- The default of ensure's error parameter: ValueError("Value is None"). -/
def ensureDefault : ErrArg := .exc (Err.valueError "Value is None")

/-- ensure(value, error=ValueError("Value is None")): an Option delegates to
unwrap(error=error) with no default; a raw None raises the error argument
(ValueError around a string, verbatim otherwise); a raw value is returned. -/
def ensure (value : EnsureArg) (error : ErrArg) : Except Err V :=
  match value with
  | .wrapped o => o.unwrap Arg.sentinel error
  | .raw v =>
    match v with
    | V.vnone => .error error.toRaise
    | w => .ok w

/-- class Chain: wrapper for method chaining; the slot holds the value as-is. -/
structure Chain where
  val : V
deriving DecidableEq

/-- Chain.map(func): applies func to the held value, wrapping in a new Chain. -/
def Chain.map (c : Chain) (func : V → Except Err V) : Except Err Chain :=
  match func c.val with
  | .ok u => .ok ⟨u⟩
  | .error e => .error e

/-- The default of Chain.ensure's error parameter:
ValueError("Chain value is None"). -/
def Chain.ensureDefault : ErrArg := .exc (Err.valueError "Chain value is None")

/-- Chain.ensure(error=ValueError("Chain value is None")): runs the global
ensure on the held raw value and returns the same Chain on success. -/
def Chain.ensure (c : Chain) (error : ErrArg) : Except Err Chain :=
  match Purely.ensure (EnsureArg.raw c.val) error with
  | .ok _ => .ok c
  | .error e => .error e

/-- Chain.value: the terminal accessor. -/
def Chain.value (c : Chain) : V := c.val

end Purely

/-- One step of a dynamic safe-navigation chain: attribute access, invocation,
or indexed read. -/
inductive NavStep where
  | attr (name : String)
  | call (args : List V)
  | item (key : V)

/-- Performs one navigation step on an Option via the corresponding proxy. -/
def navStep (o : Purely.Option) : NavStep → Except Err Purely.Option
  | .attr n => o.get_attr n
  | .call as => o.call as
  | .item k => o.get_item k

/-- Performs a whole navigation chain left to right, propagating any raise. -/
def navChain (o : Purely.Option) : List NavStep → Except Err Purely.Option
  | [] => .ok o
  | s :: rest =>
    match navStep o s with
    | .ok o' => navChain o' rest
    | .error e => .error e

/-
Evaluation lemmas shared by the claim theorems below.
-/

/-- unwrap on a present Option returns the contained value whatever the other
arguments are. -/
theorem unwrap_present_eval (v : V) (d : Arg V) (e : ErrArg) (hv : v ≠ V.vnone) :
    Purely.Option.unwrap ⟨v⟩ d e = .ok v := by
  cases v <;> first | exact absurd rfl hv | rfl

/-- map on a present Option evaluates the function on the contained value. -/
theorem map_present_eval (v : V) (f : V → Except Err V) (hv : v ≠ V.vnone) :
    Purely.Option.map ⟨v⟩ f =
      (match f v with
       | .ok u => Except.ok (Purely.Option.mk u)
       | .error e => .error e) := by
  cases v <;> first | exact absurd rfl hv | rfl

/-- map on a present Option with a function that cannot raise wraps its result. -/
theorem map_pure_present (v : V) (f : V → V) (hv : v ≠ V.vnone) :
    Purely.Option.map ⟨v⟩ (fun x => .ok (f x)) = .ok ⟨f v⟩ := by
  cases v <;> first | exact absurd rfl hv | rfl

/-- get_attr on a present Option wraps the result of the raw attribute lookup. -/
theorem get_attr_present_eval (v : V) (name : String) (hv : v ≠ V.vnone) :
    Purely.Option.get_attr ⟨v⟩ name =
      (match V.pygetattr v name with
       | .ok u => Except.ok (Purely.Option.mk u)
       | .error e => .error e) := by
  cases v <;> first | exact absurd rfl hv | rfl

/-
Claim theorems.
-/

/-- C1: the claim (and the spec) say set_item on an absent Option is a silent
no-op; the source's `if self._value is None: pass` falls through instead of
returning, so getattr(None, "__setitem__") raises AttributeError.  This theorem
evaluates the faithful translation at the failing input Option(None)["k"] = 1,
and also shows the present branch does perform the indexed write. -/
theorem set_item_absent_raises :
    Purely.Option.set_item ⟨V.vnone⟩ (V.vstr "k") (VAtom.aint 1)
      = .error (Err.attributeError "NoneType" "__setitem__")
    ∧ Purely.Option.set_item ⟨V.vdict [("a", VAtom.aint 1)]⟩ (V.vstr "a") (VAtom.aint 2)
      = .ok ⟨V.vdict [("a", VAtom.aint 2)]⟩ := by
  exact ⟨rfl, rfl⟩

/-- C2 counterexample: the source defines no unwrap_or method, so a .unwrap_or
access resolves through the __getattr__ safe-navigation hook: on the present
Option(5) it raises AttributeError (the claim says unwrap_or never fails), and
on the absent Option the chained call Option(None).unwrap_or(3) yields an
absent Option whose __eq__ against the default 3 is False (the claim says it
equals the default). -/
theorem unwrap_or_not_provided_cex :
    (Purely.optionClassMethods.contains "unwrap_or") = false
    ∧ Purely.Option.get_attr ⟨V.vint 5⟩ "unwrap_or"
        = .error (Err.attributeError "int" "unwrap_or")
    ∧ (Purely.Option.get_attr ⟨V.vnone⟩ "unwrap_or").bind
        (fun m => Purely.Option.call m [V.vint 3]) = .ok ⟨V.vnone⟩
    ∧ Purely.Option.eqV ⟨V.vnone⟩ (V.vint 3) = false := by
  exact ⟨rfl, rfl, rfl, rfl⟩

/-- C2 as amended: the operation the source provides with unwrap_or's contract
is unwrap with a supplied default: for every present Option(v) it returns v for
any default and any error argument, and on the absent Option it returns the
default; with a default supplied it never fails. -/
theorem unwrap_default_as_unwrap_or (v d : V) (e : ErrArg) (hv : v ≠ V.vnone) :
    Purely.Option.unwrap ⟨v⟩ (Arg.given d) e = .ok v
    ∧ Purely.Option.unwrap ⟨V.vnone⟩ (Arg.given d) e = .ok d := by
  exact ⟨unwrap_present_eval v (Arg.given d) e hv, rfl⟩

/-- C2 witness: the amended claim evaluated at v = 5, default = 3. -/
theorem unwrap_default_as_unwrap_or_witness :
    Purely.Option.unwrap ⟨V.vint 5⟩ (Arg.given (V.vint 3)) Purely.Option.unwrapDefault
      = .ok (V.vint 5)
    ∧ Purely.Option.unwrap ⟨V.vnone⟩ (Arg.given (V.vint 3)) Purely.Option.unwrapDefault
      = .ok (V.vint 3) :=
  unwrap_default_as_unwrap_or (V.vint 5) (V.vint 3) Purely.Option.unwrapDefault (by decide)

/-- C3: map on the absent Option returns an absent Option and its result does
not depend on the supplied function (so the function is never invoked); on a
present Option(v) it returns Option(f(v)), and a failure raised by f itself
propagates unmodified. -/
theorem map_absent_no_invoke (f g : V → Except Err V) :
    Purely.Option.map ⟨V.vnone⟩ f = .ok ⟨V.vnone⟩
    ∧ Purely.Option.map ⟨V.vnone⟩ f = Purely.Option.map ⟨V.vnone⟩ g
    ∧ (∀ v e, v ≠ V.vnone → f v = .error e → Purely.Option.map ⟨v⟩ f = .error e)
    ∧ (∀ v u, v ≠ V.vnone → f v = .ok u → Purely.Option.map ⟨v⟩ f = .ok ⟨u⟩) := by
  refine ⟨rfl, rfl, ?_, ?_⟩
  · intro v e hv hf
    rw [map_present_eval v f hv, hf]
  · intro v u hv hf
    rw [map_present_eval v f hv, hf]

/-- C3 witness: absence skips the function, and a raising function's failure is
propagated on a present value. -/
theorem map_absent_no_invoke_witness :
    Purely.Option.map ⟨V.vnone⟩ (fun x => .ok x) = .ok ⟨V.vnone⟩
    ∧ Purely.Option.map ⟨V.vint 2⟩ (fun _ => .error (Err.valueError "boom"))
        = .error (Err.valueError "boom") := by
  constructor
  · exact (map_absent_no_invoke (fun x => .ok x) (fun x => .ok x)).1
  · exact (map_absent_no_invoke (fun _ => .error (Err.valueError "boom"))
      (fun x => .ok x)).2.2.1 (V.vint 2) (Err.valueError "boom") (by decide) rfl

/-- C4: ensure is polymorphic over raw and wrapped input: ensure(5) = 5;
ensure(None) raises the default ValueError("Value is None"); ensure(None,
"custom") raises ValueError("custom"); ensure(Option(None), "custom") fails
identically; ensure(Option(5)) = 5; and a pre-built error value is raised
verbatim on both the raw and the wrapped absent input. -/
theorem ensure_polymorphic :
    Purely.ensure (Purely.EnsureArg.raw (V.vint 5)) Purely.ensureDefault = .ok (V.vint 5)
    ∧ Purely.ensure (Purely.EnsureArg.raw V.vnone) Purely.ensureDefault
        = .error (Err.valueError "Value is None")
    ∧ Purely.ensure (Purely.EnsureArg.raw V.vnone) (ErrArg.msg "custom")
        = .error (Err.valueError "custom")
    ∧ Purely.ensure (Purely.EnsureArg.wrapped ⟨V.vnone⟩) (ErrArg.msg "custom")
        = .error (Err.valueError "custom")
    ∧ Purely.ensure (Purely.EnsureArg.wrapped ⟨V.vint 5⟩) Purely.ensureDefault = .ok (V.vint 5)
    ∧ (∀ e : Err, Purely.ensure (Purely.EnsureArg.raw V.vnone) (ErrArg.exc e) = .error e)
    ∧ (∀ e : Err, Purely.ensure (Purely.EnsureArg.wrapped ⟨V.vnone⟩) (ErrArg.exc e) = .error e) := by
  exact ⟨rfl, rfl, rfl, rfl, rfl, fun e => rfl, fun e => rfl⟩

/-- C5: every single dynamic navigation step (attribute access, invocation,
indexed read) on the absent Option yields the absent Option without raising,
and a whole chain of such steps of arbitrary depth starting from the absent
Option collapses to the absent Option without raising. -/
theorem absent_navigation_collapses (s : NavStep) (steps : List NavStep) :
    navStep ⟨V.vnone⟩ s = .ok ⟨V.vnone⟩
    ∧ navChain ⟨V.vnone⟩ steps = .ok ⟨V.vnone⟩ := by
  have hstep : ∀ t : NavStep, navStep ⟨V.vnone⟩ t = .ok ⟨V.vnone⟩ := by
    intro t
    cases t <;> rfl
  refine ⟨hstep s, ?_⟩
  induction steps with
  | nil => rfl
  | cons t rest ih => simp [navChain, hstep t, ih]

/-- C6 counterexample: the composition law fails when f returns None: with
v = 5, f constantly None and g constantly 0, Option(5).map(f).map(g) is the
absent Option, while Option(g(f(5))) = Option(0), and their __eq__ is False. -/
theorem map_composition_cex :
    (Purely.Option.map ⟨V.vint 5⟩ (fun _ => Except.ok V.vnone)).bind
        (fun o => Purely.Option.map o (fun _ => Except.ok (V.vint 0)))
      = .ok ⟨V.vnone⟩
    ∧ Purely.Option.eqOpt ⟨V.vnone⟩ ⟨V.vint 0⟩ = false := by
  exact ⟨rfl, rfl⟩

/-- C6 as amended: functor composition holds for every present v and all
functions f, g whenever f(v) is itself present:
Option(v).map(f).map(g) = Option(g(f(v))), and their __eq__ holds. -/
theorem map_composition_amended (v : V) (f g : V → V)
    (hv : v ≠ V.vnone) (hf : f v ≠ V.vnone) :
    (Purely.Option.map ⟨v⟩ (fun x => .ok (f x))).bind
        (fun o => Purely.Option.map o (fun x => .ok (g x)))
      = .ok ⟨g (f v)⟩
    ∧ Purely.Option.eqOpt ⟨g (f v)⟩ ⟨g (f v)⟩ = true := by
  constructor
  · rw [map_pure_present v f hv]
    show Purely.Option.map ⟨f v⟩ (fun x => .ok (g x)) = .ok ⟨g (f v)⟩
    exact map_pure_present (f v) g hf
  · simp [Purely.Option.eqOpt]

/-- C6 witness: the amended law at v = 5 with identity functions. -/
theorem map_composition_amended_witness :
    (Purely.Option.map ⟨V.vint 5⟩ (fun x => .ok ((fun y => y) x))).bind
        (fun o => Purely.Option.map o (fun x => .ok ((fun y => y) x)))
      = .ok ⟨V.vint 5⟩
    ∧ Purely.Option.eqOpt ⟨V.vint 5⟩ ⟨V.vint 5⟩ = true :=
  map_composition_amended (V.vint 5) (fun y => y) (fun y => y) (by decide) (by decide)

/-- C7: attribute lookup through get_attr on a present Option whose value does
not have the requested attribute propagates the AttributeError of the raw
lookup unmodified; it is never converted to an absent Option. -/
theorem get_attr_missing_hard_failure (v : V) (name : String) (e : Err)
    (hv : v ≠ V.vnone) (h : V.pygetattr v name = .error e) :
    Purely.Option.get_attr ⟨v⟩ name = .error e := by
  rw [get_attr_present_eval v name hv, h]

/-- C7 witness: looking up the nonexistent attribute foo on Option(5) raises
AttributeError instead of yielding an absent Option. -/
theorem get_attr_missing_hard_failure_witness :
    Purely.Option.get_attr ⟨V.vint 5⟩ "foo" = .error (Err.attributeError "int" "foo") :=
  get_attr_missing_hard_failure (V.vint 5) "foo" (Err.attributeError "int" "foo")
    (by decide) rfl

/-- C8: Chain.ensure follows the presence-assertion contract:
Chain(None).ensure("boom") raises ValueError("boom"), and for every non-null
value v and every error argument Chain(v).ensure returns the same Chain. -/
theorem chain_ensure_contract (v : V) (hv : v ≠ V.vnone) :
    Purely.Chain.ensure ⟨V.vnone⟩ (ErrArg.msg "boom") = .error (Err.valueError "boom")
    ∧ ∀ e : ErrArg, Purely.Chain.ensure ⟨v⟩ e = .ok ⟨v⟩ := by
  refine ⟨rfl, ?_⟩
  intro e
  cases v <;> first | exact absurd rfl hv | rfl

/-- C8 witness: Chain(5).ensure() with the default error succeeds unchanged. -/
theorem chain_ensure_contract_witness :
    Purely.Chain.ensure ⟨V.vint 5⟩ Purely.Chain.ensureDefault = .ok ⟨V.vint 5⟩ :=
  (chain_ensure_contract (V.vint 5) (by decide)).2 Purely.Chain.ensureDefault

/-- C9: whenever a default is supplied, unwrap returns ok of the contained
value on a present Option and ok of the default on the absent one, for every
error argument — so it never raises and the error branch is unreachable. -/
theorem unwrap_default_never_raises (o : Purely.Option) (d : V) (e : ErrArg) :
    o.unwrap (Arg.given d) e = .ok (if o.val = V.vnone then d else o.val) := by
  rcases o with ⟨v⟩
  cases v <;> simp [Purely.Option.unwrap]

/-- C10: Chain.ensure with its own default error argument on a Chain holding
None raises ValueError("Chain value is None"), a message distinct from the
general presence-assertion default "Value is None". -/
theorem chain_ensure_default_message :
    Purely.Chain.ensure ⟨V.vnone⟩ Purely.Chain.ensureDefault
      = .error (Err.valueError "Chain value is None")
    ∧ (("Chain value is None" == "Value is None") = false) := by
  exact ⟨rfl, rfl⟩
